import Mathlib

/-!
Verification of the squircle path construction in `scripts/generate_icon.py`
(repository `Whatever-Co/MeetsAudioRec`).

The geometric core of the script is `create_squircle_path`, which emits
Apple's continuous-curvature rounded rectangle as a sequence of path
segments.  We embed the routine shallowly: points are pairs of rationals
(the Python floats carry exact decimal constants, which we read as exact
rationals), path segments are a tagged variant mirroring the `NSBezierPath`
calls (each segment records the target point and, for curves, the two
control points, exactly as passed to the toolkit), and the function becomes
a pure Lean function producing the list of emitted segments.
-/

namespace MeetsAudioRec

/-- A planar point with rational coordinates. -/
structure Point where
  x : ℚ
  y : ℚ
deriving DecidableEq, Repr

/-- A path segment, mirroring the `NSBezierPath` mutation calls used by the
script: `moveToPoint_`, `lineToPoint_`,
`curveToPoint_controlPoint1_controlPoint2_` (target point first, then the
two control points, in the source's argument order), and `closePath`. -/
inductive PathSegment where
  | moveTo (p : Point)
  | lineTo (p : Point)
  | cubicCurveTo (e c1 c2 : Point)
  | close
deriving DecidableEq, Repr

/-- A path is the ordered sequence of emitted segments. -/
abbrev PathSegs := List PathSegment

/-- Apple's magic constant for radius limiting (source line 31). -/
def LIMIT_FACTOR : ℚ := 1.52866483

/-- Control point multipliers, relative to the limited radius
(source lines 35-48). -/
def TOP_RIGHT_P1 : ℚ := 1.52866483

def TOP_RIGHT_P2 : ℚ := 1.08849323

def TOP_RIGHT_P3 : ℚ := 0.86840689

def TOP_RIGHT_P4 : ℚ := 0.66993427

def TOP_RIGHT_P5 : ℚ := 0.63149399

def TOP_RIGHT_P6 : ℚ := 0.37282392

def TOP_RIGHT_P7 : ℚ := 0.16906013

def TOP_RIGHT_P8 : ℚ := 0.07491176

def TOP_RIGHT_CP1 : ℚ := 0.06549600

def TOP_RIGHT_CP2 : ℚ := 0.07491100

def TOP_RIGHT_CP3 : ℚ := 0.16905899

def TOP_RIGHT_CP4 : ℚ := 0.37282401

def TOP_RIGHT_CP5 : ℚ := 0.63149399

/-- The segment-emission part of `create_squircle_path` (source lines
58-148), parameterised by the already-limited radius `r`: the corner
positions `left`, `right`, `top`, `bottom` are derived from the rectangle,
then the closed contour is emitted segment by segment in source order. -/
def squircleSegments (x y width height r : ℚ) : PathSegs :=
  let left := x
  let right := x + width
  let top := y + height
  let bottom := y
  [ .moveTo ⟨left + r * TOP_RIGHT_P1, top⟩,
    .lineTo ⟨right - r * TOP_RIGHT_P1, top⟩,
    .cubicCurveTo ⟨right - r * TOP_RIGHT_P4, top - r * TOP_RIGHT_CP1⟩
      ⟨right - r * TOP_RIGHT_P2, top⟩
      ⟨right - r * TOP_RIGHT_P3, top⟩,
    .cubicCurveTo ⟨right - r * TOP_RIGHT_CP2, top - r * TOP_RIGHT_P5⟩
      ⟨right - r * TOP_RIGHT_P6, top - r * TOP_RIGHT_CP3⟩
      ⟨right - r * TOP_RIGHT_P7, top - r * TOP_RIGHT_CP4⟩,
    .cubicCurveTo ⟨right, top - r * TOP_RIGHT_P1⟩
      ⟨right, top - r * TOP_RIGHT_P3⟩
      ⟨right, top - r * TOP_RIGHT_P2⟩,
    .lineTo ⟨right, bottom + r * TOP_RIGHT_P1⟩,
    .cubicCurveTo ⟨right - r * TOP_RIGHT_CP1, bottom + r * TOP_RIGHT_P4⟩
      ⟨right, bottom + r * TOP_RIGHT_P2⟩
      ⟨right, bottom + r * TOP_RIGHT_P3⟩,
    .cubicCurveTo ⟨right - r * TOP_RIGHT_P5, bottom + r * TOP_RIGHT_CP2⟩
      ⟨right - r * TOP_RIGHT_CP3, bottom + r * TOP_RIGHT_P6⟩
      ⟨right - r * TOP_RIGHT_CP4, bottom + r * TOP_RIGHT_P7⟩,
    .cubicCurveTo ⟨right - r * TOP_RIGHT_P1, bottom⟩
      ⟨right - r * TOP_RIGHT_P3, bottom⟩
      ⟨right - r * TOP_RIGHT_P2, bottom⟩,
    .lineTo ⟨left + r * TOP_RIGHT_P1, bottom⟩,
    .cubicCurveTo ⟨left + r * TOP_RIGHT_P4, bottom + r * TOP_RIGHT_CP1⟩
      ⟨left + r * TOP_RIGHT_P2, bottom⟩
      ⟨left + r * TOP_RIGHT_P3, bottom⟩,
    .cubicCurveTo ⟨left + r * TOP_RIGHT_CP2, bottom + r * TOP_RIGHT_P5⟩
      ⟨left + r * TOP_RIGHT_P6, bottom + r * TOP_RIGHT_CP3⟩
      ⟨left + r * TOP_RIGHT_P7, bottom + r * TOP_RIGHT_CP4⟩,
    .cubicCurveTo ⟨left, bottom + r * TOP_RIGHT_P1⟩
      ⟨left, bottom + r * TOP_RIGHT_P3⟩
      ⟨left, bottom + r * TOP_RIGHT_P2⟩,
    .lineTo ⟨left, top - r * TOP_RIGHT_P1⟩,
    .cubicCurveTo ⟨left + r * TOP_RIGHT_CP1, top - r * TOP_RIGHT_P4⟩
      ⟨left, top - r * TOP_RIGHT_P2⟩
      ⟨left, top - r * TOP_RIGHT_P3⟩,
    .cubicCurveTo ⟨left + r * TOP_RIGHT_P5, top - r * TOP_RIGHT_CP2⟩
      ⟨left + r * TOP_RIGHT_CP3, top - r * TOP_RIGHT_P6⟩
      ⟨left + r * TOP_RIGHT_CP4, top - r * TOP_RIGHT_P7⟩,
    .cubicCurveTo ⟨left + r * TOP_RIGHT_P1, top⟩
      ⟨left + r * TOP_RIGHT_P3, top⟩
      ⟨left + r * TOP_RIGHT_P2, top⟩,
    .close ]

/-- `create_squircle_path` (source lines 22-148): the corner radius policy
is hard-coded to the fraction `0.22` of `min(width, height)` (source line
51), the radius is limited by `min(width, height) / 2 / LIMIT_FACTOR`
(source lines 54-55), and the segments are emitted with the limited
radius.  The function performs no input validation and is total. -/
def create_squircle_path (x y width height : ℚ) : PathSegs :=
  let corner_radius := min width height * 0.22
  let max_radius := min width height / 2
  let limited_radius := min corner_radius (max_radius / LIMIT_FACTOR)
  squircleSegments x y width height limited_radius

/-- The constructor tag of a segment, used to state structural properties
of a path independently of the coordinate values. -/
inductive SegKind where
  | move
  | line
  | curve
  | closed
deriving DecidableEq, Repr

def segKind : PathSegment → SegKind
  | .moveTo _ => .move
  | .lineTo _ => .line
  | .cubicCurveTo _ _ _ => .curve
  | .close => .closed

/-- The expected tag sequence of the emitted path: one `moveTo`, then for
each of the four sides one `lineTo` followed by three `cubicCurveTo`, and a
final `close`. -/
def squircleKindPattern : List SegKind :=
  [ .move,
    .line, .curve, .curve, .curve,
    .line, .curve, .curve, .curve,
    .line, .curve, .curve, .curve,
    .line, .curve, .curve, .curve,
    .closed ]

/-- A single parameterized corner-emission routine: the corner at anchor
`(ax, ay)` is approached along the unit axis direction `-(e1x, e1y)` and
left along `(e2x, e2y)`; its three cubic segments place every endpoint and
control point at `anchor + r·ratio·e1 + r·ratio·e2` using the shared ratio
table.  Instantiating `e1`/`e2` with the four sign/axis choices reproduces
the four corner blocks of the source verbatim. -/
def cornerCurves (ax ay e1x e1y e2x e2y r : ℚ) : PathSegs :=
  [ .cubicCurveTo
      ⟨ax + r * TOP_RIGHT_P4 * e1x + r * TOP_RIGHT_CP1 * e2x,
       ay + r * TOP_RIGHT_P4 * e1y + r * TOP_RIGHT_CP1 * e2y⟩
      ⟨ax + r * TOP_RIGHT_P2 * e1x, ay + r * TOP_RIGHT_P2 * e1y⟩
      ⟨ax + r * TOP_RIGHT_P3 * e1x, ay + r * TOP_RIGHT_P3 * e1y⟩,
    .cubicCurveTo
      ⟨ax + r * TOP_RIGHT_CP2 * e1x + r * TOP_RIGHT_P5 * e2x,
       ay + r * TOP_RIGHT_CP2 * e1y + r * TOP_RIGHT_P5 * e2y⟩
      ⟨ax + r * TOP_RIGHT_P6 * e1x + r * TOP_RIGHT_CP3 * e2x,
       ay + r * TOP_RIGHT_P6 * e1y + r * TOP_RIGHT_CP3 * e2y⟩
      ⟨ax + r * TOP_RIGHT_P7 * e1x + r * TOP_RIGHT_CP4 * e2x,
       ay + r * TOP_RIGHT_P7 * e1y + r * TOP_RIGHT_CP4 * e2y⟩,
    .cubicCurveTo
      ⟨ax + r * TOP_RIGHT_P1 * e2x, ay + r * TOP_RIGHT_P1 * e2y⟩
      ⟨ax + r * TOP_RIGHT_P3 * e2x, ay + r * TOP_RIGHT_P3 * e2y⟩
      ⟨ax + r * TOP_RIGHT_P2 * e2x, ay + r * TOP_RIGHT_P2 * e2y⟩ ]

/-- The points of a segment in traversal order (for a curve: control 1,
control 2, endpoint, matching the order in which the pen's influence
passes through them). -/
def segPoints : PathSegment → List Point
  | .moveTo p => [p]
  | .lineTo p => [p]
  | .cubicCurveTo e c1 c2 => [c1, c2, e]
  | .close => []

/-- All points of a path in traversal order. -/
def pathNodes (P : PathSegs) : List Point :=
  (P.map segPoints).flatten

/-- The points of a closed path viewed cyclically: the final point of the
squircle path coincides with its `moveTo` start, so dropping it leaves one
representative per distinct on-path position. -/
def cycleNodes (P : PathSegs) : List Point :=
  (pathNodes P).dropLast

/-- Rotation by 90 degrees (clockwise, in the source's y-up coordinates)
about the point `c`. -/
def rotCW (c p : Point) : Point :=
  ⟨c.x + (p.y - c.y), c.y - (p.x - c.x)⟩

/-- Reflection across the vertical line through `c`. -/
def reflectV (c p : Point) : Point :=
  ⟨2 * c.x - p.x, p.y⟩

/-- The two recoverable error kinds of the spec's `SquirclePathBuilder`. -/
inductive BuildError where
  | InvalidRectangle
  | InvalidRadius
deriving DecidableEq, Repr

/-- A rectangle: origin point (left, bottom) plus width and height. -/
structure Rectangle where
  x : ℚ
  y : ℚ
  width : ℚ
  height : ℚ
deriving DecidableEq, Repr

/-- Modelled from the spec: `SquirclePathBuilder.build(rect,
cornerRadiusFraction)`.  The repository's source hard-codes the fraction
`0.22` and performs no validation; the spec's builder contract — the
`cornerRadiusFraction` parameter, the eager `InvalidRectangle` /
`InvalidRadius` checks before any construction — exists only in the spec,
so it is modelled here from the spec's words.  The radius policy and the
segment emission are those of the source (`r = min(fraction · min(w,h),
min(w,h)/2/LIMIT_FACTOR)`, then `squircleSegments`). -/
def build (rect : Rectangle) (cornerRadiusFraction : ℚ) :
    Except BuildError PathSegs :=
  if rect.width ≤ 0 ∨ rect.height ≤ 0 then
    .error .InvalidRectangle
  else if cornerRadiusFraction < 0 then
    .error .InvalidRadius
  else
    .ok (squircleSegments rect.x rect.y rect.width rect.height
      (min (min rect.width rect.height * cornerRadiusFraction)
        (min rect.width rect.height / 2 / LIMIT_FACTOR)))

/-- Mapping a point transformation over a segment. -/
def mapSegPoints (f : Point → Point) : PathSegment → PathSegment
  | .moveTo p => .moveTo (f p)
  | .lineTo p => .lineTo (f p)
  | .cubicCurveTo e c1 c2 => .cubicCurveTo (f e) (f c1) (f c2)
  | .close => .close

/-- The drawing segments of a path: everything strictly between the
initial `moveTo` and the final `close`. -/
def drawingSegs (P : PathSegs) : PathSegs :=
  (P.drop 1).dropLast

/-- Claim C1: for every rectangle with strictly positive width and height,
the path built by `create_squircle_path` is exactly one `moveTo`, then for
each of the four sides in order (top edge, top-right corner, right edge,
bottom-right corner, bottom edge, bottom-left corner, left edge, top-left
corner) one `lineTo` for the straight edge run followed by exactly three
`cubicCurveTo` segments for the corner, and a single `close` as the last
segment. -/
theorem squircle_segment_order (x y width height : ℚ)
    (_hw : 0 < width) (_hh : 0 < height) :
    (create_squircle_path x y width height).map segKind =
      squircleKindPattern := by
  rfl

theorem squircle_segment_order_witness :
    (0:ℚ) < 1 ∧
    (create_squircle_path 0 0 1 1).map segKind = squircleKindPattern :=
  ⟨by norm_num, squircle_segment_order 0 0 1 1 (by norm_num) (by norm_num)⟩

/-- Claim C9: `create_squircle_path` performs no input validation and is
total over all rational inputs — for every `x`, `y`, `width`, `height`,
including non-positive width or height, it returns a path with the same
segment structure (one `moveTo`, four `lineTo`, twelve `cubicCurveTo`, one
`close`), the radius being computed from `min(width, height)` even when
that is zero or negative. -/
theorem total_without_validation (x y width height : ℚ) :
    (create_squircle_path x y width height).map segKind =
        squircleKindPattern ∧
    ((create_squircle_path x y width height).map segKind).count .move = 1 ∧
    ((create_squircle_path x y width height).map segKind).count .line = 4 ∧
    ((create_squircle_path x y width height).map segKind).count .curve = 12 ∧
    ((create_squircle_path x y width height).map segKind).count .closed = 1 ∧
    (create_squircle_path x y width height).head? =
      some (.moveTo ⟨x + min (min width height * 0.22)
        (min width height / 2 / LIMIT_FACTOR) * TOP_RIGHT_P1, y + height⟩) :=
  ⟨rfl, rfl, rfl, rfl, rfl, rfl⟩

/-- Claim C8: for every valid rectangle the produced path is a single
well-formed closed contour.  In this embedding each segment records its
target point and implicitly starts at the previous segment's target, just
as the `NSBezierPath` calls do, so continuity of consecutive segments is
inherent to the representation; the substantive facts are that the first
segment is the `moveTo` at `(left + r·P1, top)`, the last is `close`, the
final `cubicCurveTo` (the top-left corner's third curve) ends exactly at
the `moveTo` start point, and hence the first and last points of the whole
traversal coincide. -/
theorem closed_contour_wellformed (x y width height : ℚ)
    (_hw : 0 < width) (_hh : 0 < height) :
    (create_squircle_path x y width height).head? =
      some (.moveTo ⟨x + min (min width height * 0.22)
        (min width height / 2 / LIMIT_FACTOR) * TOP_RIGHT_P1, y + height⟩) ∧
    (create_squircle_path x y width height).getLast? =
      some PathSegment.close ∧
    (create_squircle_path x y width height)[16]? =
      some (.cubicCurveTo
        ⟨x + min (min width height * 0.22)
          (min width height / 2 / LIMIT_FACTOR) * TOP_RIGHT_P1, y + height⟩
        ⟨x + min (min width height * 0.22)
          (min width height / 2 / LIMIT_FACTOR) * TOP_RIGHT_P3, y + height⟩
        ⟨x + min (min width height * 0.22)
          (min width height / 2 / LIMIT_FACTOR) * TOP_RIGHT_P2, y + height⟩) ∧
    (pathNodes (create_squircle_path x y width height)).head? =
      (pathNodes (create_squircle_path x y width height)).getLast? :=
  ⟨rfl, rfl, rfl, rfl⟩

theorem closed_contour_wellformed_witness :
    (0:ℚ) < 1 ∧
    (create_squircle_path 0 0 1 1).getLast? = some PathSegment.close ∧
    (pathNodes (create_squircle_path 0 0 1 1)).head? =
      (pathNodes (create_squircle_path 0 0 1 1)).getLast? :=
  ⟨by norm_num,
   (closed_contour_wellformed 0 0 1 1 (by norm_num) (by norm_num)).2.1,
   (closed_contour_wellformed 0 0 1 1 (by norm_num) (by norm_num)).2.2.2⟩

/-- Claim C6: for the rectangle `(x=0, y=0, width=832, height=832)` with
the fraction `0.22`, the nominal radius is `183.04`, `maxR` is `416`,
`maxR / LIMIT_FACTOR` is about `272.1`, no clamping occurs so the limited
radius is `183.04`, and the top edge's straight run spans from
`x = 183.04 · 1.52866483 ≈ 279.8` to `832` minus that value (≈ `552.2`),
both at `y = 832`. -/
theorem concrete_scenario_832 :
    min (832:ℚ) 832 * 0.22 = 183.04 ∧
    min (832:ℚ) 832 / 2 = 416 ∧
    |(416:ℚ) / LIMIT_FACTOR - 272.1| < 1/20 ∧
    (183.04:ℚ) < 416 / LIMIT_FACTOR ∧
    min (min (832:ℚ) 832 * 0.22) (min (832:ℚ) 832 / 2 / LIMIT_FACTOR) =
      183.04 ∧
    (create_squircle_path 0 0 832 832).head? =
      some (.moveTo ⟨183.04 * 1.52866483, 832⟩) ∧
    (create_squircle_path 0 0 832 832)[1]? =
      some (.lineTo ⟨832 - 183.04 * 1.52866483, 832⟩) ∧
    |(183.04:ℚ) * 1.52866483 - 279.8| < 1/100 ∧
    |832 - (183.04:ℚ) * 1.52866483 - 552.2| < 1/100 := by
  refine ⟨by norm_num, by norm_num, ?_, ?_, ?_, ?_, ?_, ?_, ?_⟩
  · rw [LIMIT_FACTOR, abs_sub_lt_iff]; norm_num
  · rw [LIMIT_FACTOR]; norm_num
  · rw [LIMIT_FACTOR]; norm_num
  · simp only [create_squircle_path, squircleSegments, List.head?]
    norm_num [LIMIT_FACTOR, TOP_RIGHT_P1]
  · simp only [create_squircle_path, squircleSegments]
    norm_num [LIMIT_FACTOR, TOP_RIGHT_P1]
  · rw [abs_sub_lt_iff]; norm_num
  · rw [abs_sub_lt_iff]; norm_num

/-- Claim C3: the builder fails with `InvalidRectangle` whenever
`width ≤ 0` or `height ≤ 0`, fails with `InvalidRadius` whenever the
rectangle is valid and `cornerRadiusFraction < 0`, and both errors are
raised eagerly before any path construction, so no partial path is ever
returned: any path the builder does return is the complete 18-segment
contour. -/
theorem build_validation_eager (rect : Rectangle) (frac : ℚ) :
    (rect.width ≤ 0 ∨ rect.height ≤ 0 →
      build rect frac = .error .InvalidRectangle) ∧
    (0 < rect.width → 0 < rect.height → frac < 0 →
      build rect frac = .error .InvalidRadius) ∧
    (∀ P, build rect frac = .ok P →
      P.map segKind = squircleKindPattern) := by
  refine ⟨?_, ?_, ?_⟩
  · intro h
    rw [build, if_pos h]
  · intro hw hh hf
    rw [build, if_neg (by push_neg; exact ⟨hw, hh⟩), if_pos hf]
  · intro P hP
    rw [build] at hP
    split at hP
    · exact absurd hP (by simp)
    · split at hP
      · exact absurd hP (by simp)
      · injection hP with h
        subst h
        rfl

theorem build_validation_eager_witness :
    build ⟨0, 0, 0, 10⟩ (11/50) = .error .InvalidRectangle ∧
    build ⟨0, 0, 10, 10⟩ (-1/10) = .error .InvalidRadius :=
  ⟨(build_validation_eager ⟨0, 0, 0, 10⟩ (11/50)).1 (by norm_num),
   (build_validation_eager ⟨0, 0, 10, 10⟩ (-1/10)).2.1
     (by norm_num) (by norm_num) (by norm_num)⟩

/-- Claim C2, counterexample: for the valid rectangle `(0,0,1,1)` and the
radius fraction `0.22 ∈ [0,1]`, the returned path has 18 segments in
total and 17 after the initial `moveTo` — not 17 and 13 as the claim
states. -/
theorem build_count_not_thirteen :
    (build ⟨0, 0, 1, 1⟩ (11/50)).toOption.map
        (fun P => (P.length, (P.drop 1).length)) = some (18, 17) ∧
    ((18:ℕ), (17:ℕ)) ≠ ((17:ℕ), (13:ℕ)) := by
  have h : build ⟨0, 0, 1, 1⟩ (11/50) =
      .ok (squircleSegments 0 0 1 1
        (min (min 1 1 * (11/50)) (min 1 1 / 2 / LIMIT_FACTOR))) := by
    rw [build, if_neg (by norm_num), if_neg (by norm_num)]
  rw [h]
  exact ⟨rfl, by decide⟩

/-- Claim C2 as amended: for every valid rectangle (width > 0,
height > 0) and every radius fraction in `[0, 1]`, the returned path
contains exactly 17 segments after the initial `moveTo`, namely 4
`lineTo`, 12 `cubicCurveTo` and 1 `close` — 18 segments in total — with
the first being `moveTo` and the last being `close`. -/
theorem build_segment_counts (rect : Rectangle) (frac : ℚ)
    (hw : 0 < rect.width) (hh : 0 < rect.height)
    (h0 : 0 ≤ frac) (_h1 : frac ≤ 1) :
    ∃ P, build rect frac = .ok P ∧
      P.map segKind = squircleKindPattern ∧
      P.length = 18 ∧ (P.drop 1).length = 17 ∧
      (P.map segKind).count .move = 1 ∧
      (P.map segKind).count .line = 4 ∧
      (P.map segKind).count .curve = 12 ∧
      (P.map segKind).count .closed = 1 ∧
      (∃ p, P.head? = some (.moveTo p)) ∧
      P.getLast? = some PathSegment.close := by
  refine ⟨squircleSegments rect.x rect.y rect.width rect.height
      (min (min rect.width rect.height * frac)
        (min rect.width rect.height / 2 / LIMIT_FACTOR)),
    ?_, rfl, rfl, rfl, rfl, rfl, rfl, rfl, ⟨_, rfl⟩, rfl⟩
  rw [build, if_neg (by push_neg; exact ⟨hw, hh⟩), if_neg (not_lt.2 h0)]

theorem build_segment_counts_witness :
    (0:ℚ) < 1 ∧ (0:ℚ) ≤ 11/50 ∧ (11:ℚ)/50 ≤ 1 ∧
    (∃ P, build ⟨0, 0, 1, 1⟩ (11/50) = .ok P ∧
      P.map segKind = squircleKindPattern ∧
      P.length = 18 ∧ (P.drop 1).length = 17 ∧
      (P.map segKind).count .move = 1 ∧
      (P.map segKind).count .line = 4 ∧
      (P.map segKind).count .curve = 12 ∧
      (P.map segKind).count .closed = 1 ∧
      (∃ p, P.head? = some (.moveTo p)) ∧
      P.getLast? = some PathSegment.close) :=
  ⟨by norm_num, by norm_num, by norm_num,
   build_segment_counts ⟨0, 0, 1, 1⟩ (11/50)
     (by norm_num) (by norm_num) (by norm_num) (by norm_num)⟩

/-- Claim C4: for every valid rectangle the radius used to emit the path
equals `min(r0, maxR / LIMIT_FACTOR)` with `r0 = fraction · min(w, h)` and
`maxR = min(w, h) / 2`; whenever `r0` exceeds `maxR / LIMIT_FACTOR` the
emitted radius equals `maxR / LIMIT_FACTOR` exactly and is independent of
how much larger the fraction is, and an excessively large fraction is
never an error. -/
theorem radius_clamping (x y w h frac : ℚ) (hw : 0 < w) (hh : 0 < h) :
    (0 ≤ frac → build ⟨x, y, w, h⟩ frac =
      .ok (squircleSegments x y w h
        (min (min w h * frac) (min w h / 2 / LIMIT_FACTOR)))) ∧
    (min w h / 2 / LIMIT_FACTOR < min w h * frac →
      min (min w h * frac) (min w h / 2 / LIMIT_FACTOR) =
        min w h / 2 / LIMIT_FACTOR) ∧
    (∀ g, min w h / 2 / LIMIT_FACTOR < min w h * frac →
      min w h / 2 / LIMIT_FACTOR < min w h * g →
      build ⟨x, y, w, h⟩ frac = build ⟨x, y, w, h⟩ g) := by
  have hm : 0 < min w h := lt_min hw hh
  have ht : 0 < min w h / 2 / LIMIT_FACTOR := by
    rw [LIMIT_FACTOR]; positivity
  have hpos : ∀ g : ℚ, min w h / 2 / LIMIT_FACTOR < min w h * g → 0 ≤ g := by
    intro g hg
    have h1 : 0 < min w h * g := lt_trans ht hg
    rcases mul_pos_iff.mp h1 with ⟨_, h2⟩ | ⟨h2, _⟩
    · exact le_of_lt h2
    · exact absurd hm (not_lt.2 (le_of_lt h2))
  refine ⟨?_, ?_, ?_⟩
  · intro h0
    rw [build, if_neg (by push_neg; exact ⟨hw, hh⟩), if_neg (not_lt.2 h0)]
  · intro hlt
    exact min_eq_right (le_of_lt hlt)
  · intro g h1 h2
    rw [build, if_neg (by push_neg; exact ⟨hw, hh⟩),
      if_neg (not_lt.2 (hpos frac h1)),
      build, if_neg (by push_neg; exact ⟨hw, hh⟩),
      if_neg (not_lt.2 (hpos g h2))]
    rw [min_eq_right (le_of_lt h1), min_eq_right (le_of_lt h2)]

theorem radius_clamping_witness :
    min ((100:ℚ)) 100 / 2 / LIMIT_FACTOR < min (100:ℚ) 100 * (9/10) ∧
    min (min (100:ℚ) 100 * (9/10)) (min (100:ℚ) 100 / 2 / LIMIT_FACTOR) =
      min (100:ℚ) 100 / 2 / LIMIT_FACTOR ∧
    build ⟨0, 0, 100, 100⟩ (9/10) = build ⟨0, 0, 100, 100⟩ 5 :=
  ⟨by rw [LIMIT_FACTOR]; norm_num,
   (radius_clamping 0 0 100 100 (9/10) (by norm_num) (by norm_num)).2.1
     (by rw [LIMIT_FACTOR]; norm_num),
   (radius_clamping 0 0 100 100 (9/10) (by norm_num) (by norm_num)).2.2 5
     (by rw [LIMIT_FACTOR]; norm_num) (by rw [LIMIT_FACTOR]; norm_num)⟩

/-- Claim C10: for every rectangle with positive width and height the
limited radius `r` satisfies `r · 1.52866483 ≤ min(width, height) / 2`
for any fraction (because `LIMIT_FACTOR` equals the edge-offset ratio
`P1`), so each straight edge run has non-negative length; with the
hard-coded fraction `0.22` the inequality is strict and both the top
edge's straight run (from the `moveTo` point to the first `lineTo`
target) and the right edge's straight run have strictly positive
length. -/
theorem straight_runs_positive (x y w h : ℚ) (hw : 0 < w) (hh : 0 < h) :
    (∀ frac : ℚ, min (min w h * frac) (min w h / 2 / LIMIT_FACTOR) *
      1.52866483 ≤ min w h / 2) ∧
    min (min w h * 0.22) (min w h / 2 / LIMIT_FACTOR) * 1.52866483 <
      min w h / 2 ∧
    (create_squircle_path x y w h).head? =
      some (.moveTo ⟨x + min (min w h * 0.22)
        (min w h / 2 / LIMIT_FACTOR) * TOP_RIGHT_P1, y + h⟩) ∧
    (create_squircle_path x y w h)[1]? =
      some (.lineTo ⟨x + w - min (min w h * 0.22)
        (min w h / 2 / LIMIT_FACTOR) * TOP_RIGHT_P1, y + h⟩) ∧
    x + min (min w h * 0.22) (min w h / 2 / LIMIT_FACTOR) * TOP_RIGHT_P1 <
      x + w - min (min w h * 0.22)
        (min w h / 2 / LIMIT_FACTOR) * TOP_RIGHT_P1 ∧
    y + min (min w h * 0.22) (min w h / 2 / LIMIT_FACTOR) * TOP_RIGHT_P1 <
      y + h - min (min w h * 0.22)
        (min w h / 2 / LIMIT_FACTOR) * TOP_RIGHT_P1 := by
  have hm : 0 < min w h := lt_min hw hh
  have hmw : min w h ≤ w := min_le_left w h
  have hmh : min w h ≤ h := min_le_right w h
  have hc : min w h / 2 / (1.52866483:ℚ) * 1.52866483 = min w h / 2 :=
    div_mul_cancel₀ _ (by norm_num)
  have hstrict : min (min w h * 0.22) (min w h / 2 / (1.52866483:ℚ)) *
      1.52866483 < min w h / 2 := by
    have h3 : min (min w h * 0.22) (min w h / 2 / (1.52866483:ℚ)) ≤
        min w h * 0.22 := min_le_left _ _
    linarith
  refine ⟨?_, by rw [LIMIT_FACTOR]; exact hstrict, rfl, rfl, ?_, ?_⟩
  · intro frac
    rw [LIMIT_FACTOR]
    have h1 : min (min w h * frac) (min w h / 2 / (1.52866483:ℚ)) ≤
        min w h / 2 / 1.52866483 := min_le_right _ _
    linarith
  · rw [TOP_RIGHT_P1, LIMIT_FACTOR]
    linarith
  · rw [TOP_RIGHT_P1, LIMIT_FACTOR]
    linarith

theorem straight_runs_positive_witness :
    (0:ℚ) < 1 ∧
    min (min (1:ℚ) 1 * 0.22) (min (1:ℚ) 1 / 2 / LIMIT_FACTOR) *
      1.52866483 < min (1:ℚ) 1 / 2 ∧
    (0:ℚ) + min (min (1:ℚ) 1 * 0.22) (min (1:ℚ) 1 / 2 / LIMIT_FACTOR) *
        TOP_RIGHT_P1 <
      0 + 1 - min (min (1:ℚ) 1 * 0.22) (min (1:ℚ) 1 / 2 / LIMIT_FACTOR) *
        TOP_RIGHT_P1 :=
  ⟨by norm_num,
   (straight_runs_positive 0 0 1 1 (by norm_num) (by norm_num)).2.1,
   (straight_runs_positive 0 0 1 1 (by norm_num) (by norm_num)).2.2.2.2.1⟩

/-- Claim C5: the thirteen named ratio constants have exactly the quoted
decimal values, and each of the four corners' three curve endpoints and
six control points are produced by scaling entries of that single table by
the limited radius `r` and adding the result to (or subtracting it from)
the corner's anchor point: the whole emitted path equals one shared
parameterized corner routine (`cornerCurves`) instantiated at the four
anchors, with only the sign/axis vectors `e1`, `e2` differing per
corner. -/
theorem corner_ratio_table (x y w h r : ℚ) :
    TOP_RIGHT_P1 = 1.52866483 ∧ TOP_RIGHT_P2 = 1.08849323 ∧
    TOP_RIGHT_P3 = 0.86840689 ∧ TOP_RIGHT_P4 = 0.66993427 ∧
    TOP_RIGHT_P5 = 0.63149399 ∧ TOP_RIGHT_P6 = 0.37282392 ∧
    TOP_RIGHT_P7 = 0.16906013 ∧ TOP_RIGHT_P8 = 0.07491176 ∧
    TOP_RIGHT_CP1 = 0.06549600 ∧ TOP_RIGHT_CP2 = 0.07491100 ∧
    TOP_RIGHT_CP3 = 0.16905899 ∧ TOP_RIGHT_CP4 = 0.37282401 ∧
    TOP_RIGHT_CP5 = 0.63149399 ∧
    squircleSegments x y w h r =
      [PathSegment.moveTo ⟨x + r * TOP_RIGHT_P1, y + h⟩,
       PathSegment.lineTo ⟨x + w - r * TOP_RIGHT_P1, y + h⟩] ++
      cornerCurves (x + w) (y + h) (-1) 0 0 (-1) r ++
      [PathSegment.lineTo ⟨x + w, y + r * TOP_RIGHT_P1⟩] ++
      cornerCurves (x + w) y 0 1 (-1) 0 r ++
      [PathSegment.lineTo ⟨x + r * TOP_RIGHT_P1, y⟩] ++
      cornerCurves x y 1 0 0 1 r ++
      [PathSegment.lineTo ⟨x, y + h - r * TOP_RIGHT_P1⟩] ++
      cornerCurves x (y + h) 0 (-1) 1 0 r ++
      [PathSegment.close] := by
  refine ⟨rfl, rfl, rfl, rfl, rfl, rfl, rfl, rfl, rfl, rfl, rfl, rfl,
    rfl, ?_⟩
  simp only [squircleSegments, cornerCurves, List.cons_append,
    List.nil_append, List.cons.injEq, Point.mk.injEq,
    PathSegment.cubicCurveTo.injEq, PathSegment.lineTo.injEq,
    PathSegment.moveTo.injEq, and_true]
  and_intros <;> ring

/-- Claim C7 as amended (rotational part): for every square rectangle
(`width == height`), rotating the emitted path by 90 degrees about
the rectangle's center maps the segment sequence onto itself up to a
cyclic reordering of the starting point: the drawing segments (between
`moveTo` and `close`) map to their own cyclic rotation by one side
(4 segments), and the cyclic sequence of all on-path points (curve
endpoints and control points included) maps to its own cyclic rotation
by one side (10 points).  The four corners' emitted control points are
thereby related by the square's 4-fold rotational symmetry. -/
theorem square_rotation_symmetry (x y s : ℚ) :
    (drawingSegs (create_squircle_path x y s s)).map
        (mapSegPoints (rotCW ⟨x + s / 2, y + s / 2⟩)) =
      (drawingSegs (create_squircle_path x y s s)).rotate 4 ∧
    (cycleNodes (create_squircle_path x y s s)).map
        (rotCW ⟨x + s / 2, y + s / 2⟩) =
      (cycleNodes (create_squircle_path x y s s)).rotate 10 := by
  constructor
  · simp only [create_squircle_path, squircleSegments, drawingSegs,
      mapSegPoints, rotCW, List.drop_succ_cons, List.drop_zero,
      List.dropLast, List.map_cons, List.map_nil,
      List.rotate_cons_succ, List.rotate_zero, List.cons_append,
      List.nil_append, List.append_nil, List.cons.injEq, Point.mk.injEq,
      PathSegment.cubicCurveTo.injEq, PathSegment.lineTo.injEq]
    and_intros <;> ring
  · simp only [create_squircle_path, squircleSegments, cycleNodes,
      pathNodes, segPoints, rotCW, List.map_cons, List.map_nil,
      List.flatten, List.cons_append, List.nil_append, List.dropLast,
      List.rotate_cons_succ, List.rotate_zero, List.append_nil,
      List.cons.injEq, Point.mk.injEq]
    and_intros <;> ring

/-- Claim C7, counterexample (reflection part): for the unit square at the
origin the emitted radius is `0.22`, the endpoint of the top-right
corner's first curve, `(1 - 0.22·P4, 1 - 0.22·CP1)`, is a node of the
path, but its mirror image across the square's vertical center line is
not a node of the path: the ratio table is not palindromic (`P4 ≠ P5`,
`CP1 ≠ CP2`), so the squircle is not exactly symmetric under the
rectangle's reflections. -/
theorem square_reflection_asymmetry :
    (⟨1 - 11/50 * TOP_RIGHT_P4, 1 - 11/50 * TOP_RIGHT_CP1⟩ : Point) ∈
      cycleNodes (create_squircle_path 0 0 1 1) ∧
    reflectV ⟨1/2, 1/2⟩
        ⟨1 - 11/50 * TOP_RIGHT_P4, 1 - 11/50 * TOP_RIGHT_CP1⟩ ∉
      cycleNodes (create_squircle_path 0 0 1 1) := by
  have hmin : min (min (1:ℚ) 1 * 0.22) (min (1:ℚ) 1 / 2 / LIMIT_FACTOR) =
      11/50 := by
    rw [LIMIT_FACTOR, min_self, min_eq_left (by norm_num)]
    norm_num
  have hr : create_squircle_path 0 0 1 1 =
      squircleSegments 0 0 1 1 (11/50) := by
    show squircleSegments 0 0 1 1
      (min (min (1:ℚ) 1 * 0.22) (min (1:ℚ) 1 / 2 / LIMIT_FACTOR)) = _
    rw [hmin]
  rw [hr]
  constructor
  · simp only [cycleNodes, pathNodes, squircleSegments, segPoints,
      List.map_cons, List.map_nil, List.flatten, List.cons_append,
      List.nil_append, List.dropLast, List.mem_cons, List.not_mem_nil,
      or_false, Point.mk.injEq]
    norm_num [TOP_RIGHT_P1, TOP_RIGHT_P2, TOP_RIGHT_P3, TOP_RIGHT_P4,
      TOP_RIGHT_P5, TOP_RIGHT_P6, TOP_RIGHT_P7, TOP_RIGHT_CP1,
      TOP_RIGHT_CP2, TOP_RIGHT_CP3, TOP_RIGHT_CP4]
  · simp only [reflectV, cycleNodes, pathNodes, squircleSegments, segPoints,
      List.map_cons, List.map_nil, List.flatten, List.cons_append,
      List.nil_append, List.dropLast, List.mem_cons, List.not_mem_nil,
      or_false, Point.mk.injEq, not_or]
    norm_num [TOP_RIGHT_P1, TOP_RIGHT_P2, TOP_RIGHT_P3, TOP_RIGHT_P4,
      TOP_RIGHT_P5, TOP_RIGHT_P6, TOP_RIGHT_P7, TOP_RIGHT_CP1,
      TOP_RIGHT_CP2, TOP_RIGHT_CP3, TOP_RIGHT_CP4]

end MeetsAudioRec
